import Mathlib

/-!
Verification development for the credit-scoring engine in `backend/scoring.py`.
Python floats are embedded as rationals (`ℚ`), Python ints as `ℤ`, Python
dictionaries of applicant fields as a structure, and fallible operations
(dictionary division by zero, array-shape mismatches, file reads) as `Option`.
-/

/-- The applicant record consumed by `scoring.py` (the fields of the input dict
that the scoring functions read; see `schemas.CreditInput`). -/
structure ApplicantData where
  age : ℤ
  marital_status : String
  monthly_income : ℚ
  monthly_expense : ℚ
  debt_percentage : ℚ
  active_debts : Bool
  previous_loans : ℤ
  late_payments : ℤ
  active_credit_cards : Bool
  payment_delay : Option ℚ
  average_balance : Option ℚ
  deriving DecidableEq, Repr

/-- Python `str.lower()`, ASCII case folding applied to every character
(the marital-status values the repository compares against are ASCII). -/
def pyLower (s : String) : String := ⟨s.data.map Char.toLower⟩

/-- `preprocess_features` (scoring.py lines 103-126): converts the input dict to
the fixed 11-element feature vector.  Total and deterministic by construction. -/
def preprocess_features (data : ApplicantData) : List ℚ :=
  let marital_encoded : ℚ :=
    if pyLower data.marital_status = "casado" ∨ pyLower data.marital_status = "married"
    then 1 else 0
  let active_debts : ℚ := if data.active_debts then 1 else 0
  let active_cards : ℚ := if data.active_credit_cards then 1 else 0
  [ (data.age : ℚ),
    data.monthly_income,
    data.monthly_expense,
    data.debt_percentage,
    (data.previous_loans : ℚ),
    (data.late_payments : ℚ),
    marital_encoded,
    active_debts,
    active_cards,
    data.payment_delay.getD 0,
    data.average_balance.getD 0 ]

/-- `get_risk_level` (scoring.py lines 210-217). -/
def get_risk_level (score : ℤ) : String :=
  if score ≤ 40 then "riesgo alto"
  else if score ≤ 70 then "riesgo medio"
  else "bajo riesgo"

/-- The inline risk-level branching inside `predict_credit_score`
(scoring.py lines 146-151). -/
def inline_risk_level (score : ℤ) : String :=
  if score ≤ 40 then "riesgo alto"
  else if score ≤ 70 then "riesgo medio"
  else "bajo riesgo"

/-- The three factor lists returned by `analyze_risk_factors`. -/
structure RiskFactors where
  positive : List String
  negative : List String
  neutral : List String
  deriving DecidableEq, Repr

/-- `analyze_risk_factors` (scoring.py lines 169-208).  The `features` and
`importance` parameters are accepted, as in the source, but never read.
Python raises `ZeroDivisionError` when `monthly_expense` is zero, hence the
`Option`.  Each `if/elif` chain of the source is translated literally: the
`elif` guard carries the negation of the `if` guard. -/
def analyze_risk_factors (data : ApplicantData) (features : List ℚ)
    (importance : List (String × ℚ)) : Option RiskFactors :=
  if data.monthly_expense = 0 then none
  else
    let ratioIncomeExpense := data.monthly_income / data.monthly_expense
    let positive :=
      (if ratioIncomeExpense > 3/2 then ["Relación ingresos/gastos saludable"] else [])
      ++ (if data.debt_percentage < 30 then ["Bajo nivel de endeudamiento"] else [])
      ++ (if data.late_payments = 0 then ["Historial de pagos perfecto"] else [])
      ++ (if 25 ≤ data.age ∧ data.age ≤ 55 then ["Edad en rango óptimo para crédito"] else [])
      ++ (if ¬ data.previous_loans > 5 ∧ (1 ≤ data.previous_loans ∧ data.previous_loans ≤ 3)
          then ["Experiencia crediticia moderada"] else [])
    let negative :=
      (if ¬ ratioIncomeExpense > 3/2 ∧ ratioIncomeExpense < 6/5
        then ["Gastos muy altos en relación a ingresos"] else [])
      ++ (if ¬ data.debt_percentage < 30 ∧ data.debt_percentage > 60
          then ["Alto nivel de endeudamiento"] else [])
      ++ (if ¬ data.late_payments = 0 ∧ data.late_payments > 2
          then ["Múltiples retrasos en pagos"] else [])
      ++ (if data.previous_loans > 5 then ["Demasiados préstamos anteriores"] else [])
    let neutral :=
      if ¬ (25 ≤ data.age ∧ data.age ≤ 55) ∧ data.age < 25
      then ["Edad joven - historial crediticio limitado"] else []
    some ⟨positive, negative, neutral⟩

/-- The risk-factor rule table exactly as the specification section 4.7 writes
it: independent conditions, each contributing one message to its bucket. -/
def analyzeSpecTable (data : ApplicantData) : RiskFactors :=
  let r := data.monthly_income / data.monthly_expense
  { positive :=
      (if r > 3/2 then ["Relación ingresos/gastos saludable"] else [])
      ++ (if data.debt_percentage < 30 then ["Bajo nivel de endeudamiento"] else [])
      ++ (if data.late_payments = 0 then ["Historial de pagos perfecto"] else [])
      ++ (if 25 ≤ data.age ∧ data.age ≤ 55 then ["Edad en rango óptimo para crédito"] else [])
      ++ (if 1 ≤ data.previous_loans ∧ data.previous_loans ≤ 3
          then ["Experiencia crediticia moderada"] else [])
    negative :=
      (if r < 6/5 then ["Gastos muy altos en relación a ingresos"] else [])
      ++ (if data.debt_percentage > 60 then ["Alto nivel de endeudamiento"] else [])
      ++ (if data.late_payments > 2 then ["Múltiples retrasos en pagos"] else [])
      ++ (if data.previous_loans > 5 then ["Demasiados préstamos anteriores"] else [])
    neutral :=
      if data.age < 25 then ["Edad joven - historial crediticio limitado"] else [] }

/-- C10: for every integer score, the inline risk-level branching inside
`predict_credit_score` returns the same string as the standalone
`get_risk_level`: the two bucketing implementations are equivalent. -/
theorem inline_risk_level_eq_get_risk_level :
    ∀ score : ℤ, inline_risk_level score = get_risk_level score :=
  fun _ => rfl

/-- C1: for every integer score in [0,100] the risk level assigned by the
scorer is determined solely by the fixed thresholds: score ≤ 40 yields
"riesgo alto", 41 ≤ score ≤ 70 yields "riesgo medio", score > 70 yields
"bajo riesgo". -/
theorem risk_level_thresholds (score : ℤ) (h0 : 0 ≤ score) (h100 : score ≤ 100) :
    (score ≤ 40 → inline_risk_level score = "riesgo alto")
    ∧ (41 ≤ score → score ≤ 70 → inline_risk_level score = "riesgo medio")
    ∧ (70 < score → inline_risk_level score = "bajo riesgo") := by
  refine ⟨fun h => ?_, fun h41 h70 => ?_, fun h => ?_⟩
  · simp [inline_risk_level, if_pos h]
  · rw [inline_risk_level, if_neg (by omega), if_pos h70]
  · rw [inline_risk_level, if_neg (by omega), if_neg (by omega)]

/-- Witness for C1 at the boundary scores 40, 41, 70 and 71. -/
theorem risk_level_thresholds_boundary :
    inline_risk_level 40 = "riesgo alto"
    ∧ inline_risk_level 41 = "riesgo medio"
    ∧ inline_risk_level 70 = "riesgo medio"
    ∧ inline_risk_level 71 = "bajo riesgo" :=
  ⟨(risk_level_thresholds 40 (by decide) (by decide)).1 (by decide),
   (risk_level_thresholds 41 (by decide) (by decide)).2.1 (by decide) (by decide),
   (risk_level_thresholds 70 (by decide) (by decide)).2.1 (by decide) (by decide),
   (risk_level_thresholds 71 (by decide) (by decide)).2.2 (by decide)⟩

/-- C4: `preprocess_features` is total and deterministic (it is a Lean
function), always produces the 11-element vector in the fixed documented
order, encodes the marital status as 1 exactly when it case-insensitively
equals "casado" or "married" (else 0), maps boolean flags to 0/1, and
defaults the absent optional fields to 0. -/
theorem preprocess_features_spec (data : ApplicantData) :
    (preprocess_features data).length = 11
    ∧ ∃ m : ℚ,
      preprocess_features data =
        [ (data.age : ℚ), data.monthly_income, data.monthly_expense,
          data.debt_percentage, (data.previous_loans : ℚ), (data.late_payments : ℚ),
          m, (if data.active_debts then 1 else 0),
          (if data.active_credit_cards then 1 else 0),
          data.payment_delay.getD 0, data.average_balance.getD 0 ]
      ∧ (m = 1 ↔ (pyLower data.marital_status = "casado"
                  ∨ pyLower data.marital_status = "married"))
      ∧ (m = 0 ↔ ¬ (pyLower data.marital_status = "casado"
                   ∨ pyLower data.marital_status = "married")) := by
  refine ⟨rfl, ?_⟩
  by_cases h : pyLower data.marital_status = "casado"
      ∨ pyLower data.marital_status = "married"
  · exact ⟨1, by simp [preprocess_features, if_pos h], by simp [h], by norm_num [h]⟩
  · exact ⟨0, by simp [preprocess_features, if_neg h], by norm_num [h], by simp [h]⟩

/-- C3: `analyze_risk_factors` returns, for every record with nonzero
monthly expense, exactly the factor messages whose rule-table conditions
hold, sorted into the positive/negative/neutral lists, and the result is
independent of the `features` and `importance` arguments (hence of the
classifier). -/
theorem analyze_matches_spec_table (data : ApplicantData) (features : List ℚ)
    (importance : List (String × ℚ)) (h : data.monthly_expense ≠ 0) :
    analyze_risk_factors data features importance = some (analyzeSpecTable data) := by
  have e1 : ∀ r : ℚ, (¬ r > 3/2 ∧ r < 6/5) ↔ r < 6/5 :=
    fun r => ⟨And.right, fun hb => ⟨by linarith, hb⟩⟩
  have e2 : ∀ dp : ℚ, (¬ dp < 30 ∧ dp > 60) ↔ dp > 60 :=
    fun dp => ⟨And.right, fun hb => ⟨by linarith, hb⟩⟩
  have e3 : ∀ lp : ℤ, (¬ lp = 0 ∧ lp > 2) ↔ lp > 2 := fun lp => by omega
  have e4 : ∀ a : ℤ, (¬ (25 ≤ a ∧ a ≤ 55) ∧ a < 25) ↔ a < 25 := fun a => by omega
  have e5 : ∀ L : ℤ, (¬ L > 5 ∧ (1 ≤ L ∧ L ≤ 3)) ↔ (1 ≤ L ∧ L ≤ 3) := fun L => by omega
  rw [analyze_risk_factors, if_neg h]
  simp only [analyzeSpecTable, e1, e2, e3, e4, e5]

/-- Concrete record from the specification's worked example:
age 30, income 3000, expense 1200, debt 20%, 0 late payments,
2 previous loans, married. -/
def exampleRecord : ApplicantData :=
  ⟨30, "casado", 3000, 1200, 20, false, 2, 0, false, some 0, some 0⟩

/-- Witness for C3 at the specification's worked example: the positive list
holds the healthy-ratio, low-indebtedness, perfect-payment-history,
optimal-age-range and moderate-credit-experience factors, and the negative
and neutral lists are empty. -/
theorem analyze_example_record :
    analyze_risk_factors exampleRecord [] [] =
      some ⟨["Relación ingresos/gastos saludable",
             "Bajo nivel de endeudamiento",
             "Historial de pagos perfecto",
             "Edad en rango óptimo para crédito",
             "Experiencia crediticia moderada"], [], []⟩ :=
  (analyze_matches_spec_table exampleRecord [] [] (by norm_num [exampleRecord])).trans
    (by norm_num [analyzeSpecTable, exampleRecord])

/-- sklearn `StandardScaler` state: per-dimension mean and scale. -/
structure StandardScaler where
  mean : List ℚ
  scale : List ℚ
  deriving DecidableEq, Repr

/-- `StandardScaler.transform` on one row: elementwise `(x - mean) / scale`;
sklearn raises when the row length differs from the fitted dimension count. -/
def StandardScaler.transformRow (sc : StandardScaler) (v : List ℚ) : Option (List ℚ) :=
  if v.length = sc.mean.length ∧ v.length = sc.scale.length then
    some ((v.zip (sc.mean.zip sc.scale)).map fun p => (p.1 - p.2.1) / p.2.2)
  else none

/-- `StandardScaler.transform` on a 2-D input, row by row. -/
def StandardScaler.transform (sc : StandardScaler) (rows : List (List ℚ)) :
    Option (List (List ℚ)) :=
  rows.mapM sc.transformRow

/-- The trained `RandomForestClassifier`, abstracted: a fitted input width,
the per-class probability rows it yields on a 2-D input, and its feature
importances.  `probaFun X` is the value of sklearn `predict_proba(X)`. -/
structure RandomForest where
  n_features : Nat
  probaFun : List (List ℚ) → List (List ℚ)
  feature_importances : List ℚ

/-- sklearn `predict_proba`, which raises when a row's width differs from the
fitted feature count. -/
def RandomForest.predict_proba (m : RandomForest) (X : List (List ℚ)) :
    Option (List (List ℚ)) :=
  if ∀ row ∈ X, row.length = m.n_features then some (m.probaFun X) else none

/-- Python `int()` applied to a float: truncation toward zero. -/
def pyInt (x : ℚ) : ℤ := if 0 ≤ x then ⌊x⌋ else ⌈x⌉

/-- The feature-name list of `predict_credit_score` (scoring.py lines 154-158). -/
def feature_names : List String :=
  ["edad", "ingresos_mensuales", "gastos_mensuales", "porcentaje_deuda",
   "prestamos_anteriores", "pagos_tardios", "estado_civil", "deudas_activas",
   "tarjetas_credito", "retraso_pagos", "saldo_promedio"]

/-- The body of `predict_credit_score` (scoring.py lines 128-167) after its
`load_model()` call, with the loaded (model, scaler) pair passed explicitly. -/
def predict_credit_score (model : RandomForest) (scaler : StandardScaler)
    (data : ApplicantData) : Option (ℤ × String × RiskFactors) :=
  let features := preprocess_features data
  (scaler.transform [features]).bind fun features_scaled =>
  (model.predict_proba features_scaled).bind fun probaMatrix =>
  probaMatrix.head?.bind fun proba =>
  proba.head?.bind fun good_credit_prob =>
  let score := pyInt (good_credit_prob * 100)
  let risk_level := inline_risk_level score
  let feature_impact := feature_names.zip model.feature_importances
  (analyze_risk_factors data features feature_impact).map fun factors =>
  (score, risk_level, factors)

/-- C2: whenever `predict_credit_score` returns with a loaded (model, scaler)
pair whose class probabilities lie in [0,1], the returned score equals
`⌊P(good credit) * 100⌋` for the class-0 probability `p` of the normalized
feature vector, and the score lies in [0,100]. -/
theorem predict_score_is_floor_proba (model : RandomForest) (scaler : StandardScaler)
    (data : ApplicantData) (s : ℤ) (r : String) (f : RiskFactors)
    (hret : predict_credit_score model scaler data = some (s, r, f))
    (hprob : ∀ X row, row ∈ model.probaFun X → ∀ q ∈ row, 0 ≤ q ∧ q ≤ 1) :
    ∃ scaled probaMatrix proba p,
      scaler.transform [preprocess_features data] = some scaled
      ∧ model.predict_proba scaled = some probaMatrix
      ∧ probaMatrix.head? = some proba
      ∧ proba.head? = some p
      ∧ s = ⌊p * 100⌋ ∧ 0 ≤ s ∧ s ≤ 100 := by
  simp only [predict_credit_score, Option.bind_eq_some, Option.map_eq_some'] at hret
  obtain ⟨scaled, h1, probaMatrix, h2, proba, h3, p, h4, factors, h5, h6⟩ := hret
  have hpm : probaMatrix = model.probaFun scaled := by
    rw [RandomForest.predict_proba] at h2
    by_cases hc : ∀ row ∈ scaled, row.length = model.n_features
    · rw [if_pos hc] at h2; exact (Option.some_injective _ h2).symm
    · rw [if_neg hc] at h2; exact absurd h2 (by simp)
  have hrow : proba ∈ model.probaFun scaled := by
    rw [← hpm]
    cases probaMatrix with
    | nil => exact absurd h3 (by simp)
    | cons a t =>
        simp only [List.head?_cons, Option.some.injEq] at h3
        exact h3 ▸ List.mem_cons_self a t
  have hp : p ∈ proba := by
    cases proba with
    | nil => exact absurd h4 (by simp)
    | cons a t =>
        simp only [List.head?_cons, Option.some.injEq] at h4
        exact h4 ▸ List.mem_cons_self a t
  obtain ⟨hp0, hp1⟩ := hprob scaled proba hrow p hp
  have hval : s = ⌊p * 100⌋ := by
    have : s = pyInt (p * 100) := by
      have := congrArg (fun z => z.1) h6
      simpa using this.symm
    rw [this, pyInt, if_pos (by linarith)]
  refine ⟨scaled, probaMatrix, proba, p, h1, h2, h3, h4, hval, ?_, ?_⟩
  · rw [hval]
    exact Int.floor_nonneg.mpr (by linarith)
  · rw [hval]
    have hb : ⌊p * 100⌋ ≤ ⌊(100 : ℚ)⌋ := Int.floor_le_floor (by linarith)
    simpa using hb

/-- Factor lists produced for `exampleRecord`. -/
def exampleFactors : RiskFactors :=
  ⟨["Relación ingresos/gastos saludable", "Bajo nivel de endeudamiento",
    "Historial de pagos perfecto", "Edad en rango óptimo para crédito",
    "Experiencia crediticia moderada"], [], []⟩

/-- A loaded identity scaler over the 11 features. -/
def wScaler : StandardScaler := ⟨List.replicate 11 0, List.replicate 11 1⟩

/-- A loaded classifier that yields probabilities (7/10, 3/10) on any row. -/
def wForest : RandomForest :=
  ⟨11, fun X => X.map fun _ => [7/10, 3/10], List.replicate 11 (1/11)⟩

theorem transform_singleton (sc : StandardScaler) (v : List ℚ) :
    sc.transform [v] = (sc.transformRow v).map fun r => [r] := by
  rw [StandardScaler.transform]
  cases h : sc.transformRow v <;> simp [List.mapM, List.mapM.loop, h]

/-- Witness for C2: at a concrete loaded pair and record, `predict_credit_score`
returns the score `⌊(7/10) * 100⌋ = 70` inside [0,100]. -/
theorem predict_score_is_floor_proba_witness :
    ∃ scaled probaMatrix proba p,
      wScaler.transform [preprocess_features exampleRecord] = some scaled
      ∧ wForest.predict_proba scaled = some probaMatrix
      ∧ probaMatrix.head? = some proba
      ∧ proba.head? = some p
      ∧ (70 : ℤ) = ⌊p * 100⌋ ∧ (0 : ℤ) ≤ 70 ∧ (70 : ℤ) ≤ 100 :=
  predict_score_is_floor_proba wForest wScaler exampleRecord 70 ("riesgo medio")
    exampleFactors
    (by
      have hc : (pyLower ("casado") = "casado" ∨ pyLower ("casado") = "married") := by
        left; rfl
      norm_num [predict_credit_score, preprocess_features, exampleRecord, hc,
        transform_singleton, StandardScaler.transformRow, wScaler, wForest,
        RandomForest.predict_proba, List.replicate, pyInt, inline_risk_level,
        analyze_risk_factors, exampleFactors, feature_names])
    (by
      intro X row hrow q hq
      simp only [wForest, List.mem_map] at hrow
      obtain ⟨a, _, rfl⟩ := hrow
      simp only [List.mem_cons, List.not_mem_nil, or_false] at hq
      rcases hq with rfl | rfl <;> norm_num)

/-- C8: for every applicant record satisfying the input contract (age > 0,
income > 0, expense > 0, debt% in [0,100], previous loans ≥ 0, late
payments ≥ 0), with a loaded (model, scaler) pair fitted on the 11 features
and a classifier that yields a nonempty probability row for each input row,
scoring and risk-factor analysis both succeed (never raise). -/
theorem scoring_never_fails (model : RandomForest) (scaler : StandardScaler)
    (data : ApplicantData)
    (hm : scaler.mean.length = 11) (hsc : scaler.scale.length = 11)
    (hnf : model.n_features = 11)
    (hne : ∀ X, X ≠ [] → model.probaFun X ≠ [] ∧ ∀ row ∈ model.probaFun X, row ≠ [])
    (hage : 0 < data.age) (hinc : 0 < data.monthly_income)
    (hexp : 0 < data.monthly_expense)
    (hdl : 0 ≤ data.debt_percentage) (hdu : data.debt_percentage ≤ 100)
    (hpl : 0 ≤ data.previous_loans) (hlp : 0 ≤ data.late_payments) :
    (predict_credit_score model scaler data).isSome
    ∧ ∀ importance, (analyze_risk_factors data (preprocess_features data)
        importance).isSome := by
  have hexp0 : data.monthly_expense ≠ 0 := (ne_of_lt hexp).symm
  have han : ∀ fs imp, (analyze_risk_factors data fs imp).isSome := by
    intro fs imp
    rw [analyze_risk_factors, if_neg hexp0]
    rfl
  refine ⟨?_, fun imp => han _ imp⟩
  have hlen : (preprocess_features data).length = 11 := rfl
  have htr : scaler.transformRow (preprocess_features data)
      = some ((((preprocess_features data).zip (scaler.mean.zip scaler.scale)).map
          fun p => (p.1 - p.2.1) / p.2.2)) := by
    rw [StandardScaler.transformRow, if_pos ⟨by rw [hlen, hm], by rw [hlen, hsc]⟩]
  have hslen : (((preprocess_features data).zip (scaler.mean.zip scaler.scale)).map
      fun p => (p.1 - p.2.1) / p.2.2).length = 11 := by
    simp [List.length_zip, hlen, hm, hsc]
  set srow := (((preprocess_features data).zip (scaler.mean.zip scaler.scale)).map
      fun p => (p.1 - p.2.1) / p.2.2) with hsrow
  have hpp : model.predict_proba [srow] = some (model.probaFun [srow]) := by
    rw [RandomForest.predict_proba, if_pos]
    intro row hr
    rw [List.mem_singleton] at hr
    rw [hr, hslen, hnf]
  obtain ⟨hne1, hne2⟩ := hne [srow] (by simp)
  obtain ⟨prow, ptail, hpr⟩ : ∃ a t, model.probaFun [srow] = a :: t := by
    cases h : model.probaFun [srow] with
    | nil => exact absurd h hne1
    | cons a t => exact ⟨a, t, rfl⟩
  obtain ⟨q, qtail, hq⟩ : ∃ a t, prow = a :: t := by
    cases hp2 : prow with
    | nil => exact absurd hp2 (hne2 prow (hpr ▸ List.mem_cons_self prow ptail))
    | cons a t => exact ⟨a, t, rfl⟩
  rw [predict_credit_score]
  rw [transform_singleton, htr]
  simp only [Option.map_some', Option.some_bind]
  rw [hpp]
  simp only [Option.some_bind]
  rw [hpr]
  simp only [List.head?_cons, Option.some_bind]
  rw [hq]
  simp only [List.head?_cons, Option.some_bind]
  have h2 := han (preprocess_features data) (feature_names.zip model.feature_importances)
  cases hA : analyze_risk_factors data (preprocess_features data)
      (feature_names.zip model.feature_importances) with
  | none => rw [hA] at h2; simp at h2
  | some f => rfl

/-- Witness for C8 at the concrete loaded pair and record. -/
theorem scoring_never_fails_witness :
    (predict_credit_score wForest wScaler exampleRecord).isSome
    ∧ ∀ importance, (analyze_risk_factors exampleRecord
        (preprocess_features exampleRecord) importance).isSome :=
  scoring_never_fails wForest wScaler exampleRecord rfl rfl rfl
    (by
      intro X hX
      refine ⟨by simpa [wForest] using hX, ?_⟩
      intro row hrow
      simp only [wForest, List.mem_map] at hrow
      obtain ⟨a, _, rfl⟩ := hrow
      simp)
    (by decide) (by norm_num [exampleRecord]) (by norm_num [exampleRecord])
    (by norm_num [exampleRecord]) (by norm_num [exampleRecord])
    (by decide) (by decide)

/-- The sampling interface of the `np.random` global generator, state-passing:
each sampler takes its distribution parameters, a sample count and the current
generator state and deterministically returns the samples and the next state;
`seed` resets the state from an integer. -/
structure NumpyRandom (σ : Type) where
  seed : Nat → σ
  normal : ℚ → ℚ → Nat → σ → List ℚ × σ
  lognormal : ℚ → ℚ → Nat → σ → List ℚ × σ
  uniform : ℚ → ℚ → Nat → σ → List ℚ × σ
  beta : ℚ → ℚ → Nat → σ → List ℚ × σ
  poisson : ℚ → Nat → σ → List ℚ × σ
  binomial : Nat → ℚ → Nat → σ → List ℚ × σ
  exponential : ℚ → Nat → σ → List ℚ × σ

/-- `create_training_data` (scoring.py lines 11-66): seeds the global
generator with 42, draws every feature column for 1000 samples, column-stacks
them into the feature matrix, and labels each sample by thresholding the
weighted risk score at 0.5.  The incoming generator state `g0` is the global
`np.random` state at call time; `np.random.seed(42)` discards it. -/
def create_training_data {σ : Type} (np : NumpyRandom σ) (g0 : σ) :
    List (List ℚ) × List ℤ :=
  let g := np.seed 42
  let n_samples := 1000
  let agesRaw := np.normal 35 12 n_samples g
  let ages := agesRaw.1.map fun a => min 80 (max 18 a)
  let incomes := np.lognormal 9 (8/10) n_samples agesRaw.2
  let expenseFrac := np.uniform (3/10) (9/10) n_samples incomes.2
  let expenses := List.zipWith (· * ·) incomes.1 expenseFrac.1
  let betaRaw := np.beta 2 5 n_samples expenseFrac.2
  let debt_percentages := betaRaw.1.map (· * 100)
  let previous_loans := np.poisson 2 n_samples betaRaw.2
  let late_payments := np.poisson 1 n_samples previous_loans.2
  let marital_encoded := np.binomial 1 (6/10) n_samples late_payments.2
  let active_debts := np.binomial 1 (4/10) n_samples marital_encoded.2
  let active_cards := np.binomial 1 (7/10) n_samples active_debts.2
  let payment_delays := np.exponential 5 n_samples active_cards.2
  let balances := np.lognormal 7 1 n_samples payment_delays.2
  let X := List.transpose
    [ages, incomes.1, expenses, debt_percentages, previous_loans.1,
     late_payments.1, marital_encoded.1, active_debts.1, active_cards.1,
     payment_delays.1, balances.1]
  let noise := np.normal 0 (1/10) n_samples balances.2
  let t1 := debt_percentages.map fun d => if d > 50 then (3 : ℚ)/10 else 0
  let t2 := late_payments.1.map fun l => if l > 2 then (4 : ℚ)/10 else 0
  let t3 := List.zipWith (fun e i => if e / i > 8/10 then (2 : ℚ)/10 else 0)
    expenses incomes.1
  let t4 := previous_loans.1.map fun p => if p > 3 then (1 : ℚ)/10 else 0
  let t5 := payment_delays.1.map fun p => if p > 10 then (2 : ℚ)/10 else 0
  let risk_score := List.zipWith (· + ·)
    (List.zipWith (· + ·)
      (List.zipWith (· + ·) (List.zipWith (· + ·) (List.zipWith (· + ·) t1 t2) t3) t4)
      t5)
    noise.1
  let y := risk_score.map fun r => if r > 1/2 then (1 : ℤ) else 0
  (X, y)

/-- C5: two invocations of the synthetic corpus generator produce bit-identical
training corpora (feature matrix and label vector), whatever the prior global
generator states were, because the generator reseeds with the fixed seed 42
before sampling. -/
theorem create_training_data_reproducible {σ : Type} (np : NumpyRandom σ)
    (g₁ g₂ : σ) : create_training_data np g₁ = create_training_data np g₂ :=
  rfl

/-- Mean of one feature column. -/
def colMean (c : List ℚ) : ℚ := c.sum / c.length

/-- Population variance of one feature column (sklearn uses ddof = 0). -/
def colVar (c : List ℚ) : ℚ := (c.map fun x => (x - colMean c) ^ 2).sum / c.length

/-- Modelled from the spec: the `StandardScaler.fit` step of
`scaler.fit_transform(X)` in `train_model` is sklearn library code absent from
the repository source.  Specification section 4.3 defines it: per-dimension
mean and standard deviation over the corpus, substituting 1 for a zero
standard deviation to avoid division by zero.  The square root producing the
standard deviation from the variance is abstracted as `sqrtFn`. -/
def fitScaler (sqrtFn : ℚ → ℚ) (X : List (List ℚ)) : StandardScaler :=
  let cols := X.transpose
  ⟨cols.map colMean,
   cols.map fun c =>
     let sd := sqrtFn (colVar c)
     if sd = 0 then 1 else sd⟩

/-- C6: for every corpus, fitting the normalizer substitutes 1 for the scale
of every dimension whose standard deviation is zero; consequently every fitted
scale entry is nonzero (no division by zero) and `transformRow` succeeds on
every feature vector of matching width. -/
theorem fit_zero_variance_guard (sqrtFn : ℚ → ℚ) (X : List (List ℚ))
    (h0 : sqrtFn 0 = 0) :
    (∀ sd ∈ (fitScaler sqrtFn X).scale, sd ≠ 0)
    ∧ (∀ j, j < X.transpose.length → colVar (X.transpose.getD j []) = 0 →
        (fitScaler sqrtFn X).scale.getD j 0 = 1)
    ∧ (∀ v, v.length = X.transpose.length →
        ((fitScaler sqrtFn X).transformRow v).isSome) := by
  refine ⟨?_, ?_, ?_⟩
  · intro sd hsd
    simp only [fitScaler, List.mem_map] at hsd
    obtain ⟨c, _, rfl⟩ := hsd
    by_cases h : sqrtFn (colVar c) = 0
    · simp [h]
    · simp [h]
  · intro j hj hvar
    have hgd : X.transpose.getD j [] = X.transpose[j] := List.getD_eq_getElem _ _ hj
    have hj2 : j < (List.map (fun c =>
        let sd := sqrtFn (colVar c); if sd = 0 then 1 else sd) X.transpose).length := by
      simpa using hj
    rw [fitScaler]
    rw [List.getD_eq_getElem _ _ hj2, List.getElem_map]
    rw [hgd] at hvar
    simp [hvar, h0]
  · intro v hv
    rw [StandardScaler.transformRow, if_pos]
    · rfl
    · constructor
      · simp [fitScaler, hv]
      · simp [fitScaler, hv]

/-- Witness for C6: a corpus whose first column is constant (variance zero)
receives scale 1 in that dimension. -/
theorem fit_zero_variance_guard_witness :
    (fitScaler (fun x => x) [[(1 : ℚ), 2], [1, 3]]).scale.getD 0 0 = 1 := by
  refine (fit_zero_variance_guard (fun x => x) [[(1 : ℚ), 2], [1, 3]] rfl).2.1 0 ?_ ?_
  · show 0 < (List.transpose [[(1 : ℚ), 2], [1, 3]]).length
    decide
  · have ht : (List.transpose [[(1 : ℚ), 2], [1, 3]]).getD 0 [] = [1, 1] := rfl
    rw [ht]
    norm_num [colVar, colMean]

/-- `MODEL_PATH` (scoring.py line 8). -/
def MODEL_PATH : String := "credit_model.pkl"

/-- `SCALER_PATH` (scoring.py line 9). -/
def SCALER_PATH : String := "scaler.pkl"

/-- A pickled artifact: either the classifier or the scaler. -/
inductive Blob (M : Type) where
  | model (m : M)
  | scaler (sc : StandardScaler)
  deriving DecidableEq

/-- Durable-storage content of one path: a completely written artifact, or a
partial file left by an interrupted write. -/
inductive FileContent (M : Type) where
  | valid (b : Blob M)
  | truncated
  deriving DecidableEq

/-- The durable store, newest write first. -/
abbrev FS (M : Type) := List (String × FileContent M)

def lookupFS {M : Type} (fs : FS M) (p : String) : Option (FileContent M) :=
  List.lookup p fs

def writeFS {M : Type} (fs : FS M) (p : String) (c : FileContent M) : FS M :=
  (p, c) :: fs

/-- `os.path.exists`. -/
def path_exists {M : Type} (fs : FS M) (p : String) : Bool :=
  (lookupFS fs p).isSome

/-- `joblib.load(path)`: returns the stored object; raises on a missing file
or on a partial file that cannot be unpickled. -/
def joblib_load {M : Type} (fs : FS M) (p : String) : Option (Blob M) :=
  match lookupFS fs p with
  | some (.valid b) => some b
  | _ => none

/-- `joblib.dump(obj, path)`: opens `path` for writing in place (truncating
any previous content) and writes the serialized object; `interrupted` marks a
failure between the truncation and the completed write, which leaves a
partial unreadable file at `path`.  No temporary file or atomic rename is
involved. -/
def joblib_dump {M : Type} (fs : FS M) (p : String) (b : Blob M)
    (interrupted : Bool) : FS M :=
  if interrupted then writeFS fs p .truncated else writeFS fs p (.valid b)

/-- How far the two-dump persistence sequence of `train_model` gets. -/
inductive PersistOutcome where
  | ok
  | failFirst
  | failSecond

/-- The persistence step of `train_model` (scoring.py lines 87-89): dump the
model to `MODEL_PATH`, then dump the scaler to `SCALER_PATH`; an exception
during the first dump propagates, so the second dump never runs. -/
def persistArtifacts {M : Type} (fs : FS M) (m : M) (sc : StandardScaler) :
    PersistOutcome → FS M
  | .ok => joblib_dump (joblib_dump fs MODEL_PATH (.model m) false)
      SCALER_PATH (.scaler sc) false
  | .failFirst => joblib_dump fs MODEL_PATH (.model m) true
  | .failSecond => joblib_dump (joblib_dump fs MODEL_PATH (.model m) false)
      SCALER_PATH (.scaler sc) true

/-- The training collaborators `train_model` uses: the seeded random
generator, the square root used by the scaler fit, and the
`RandomForestClassifier.fit` step (library code) producing the fitted
classifier from the scaled corpus and labels. -/
structure TrainerOps (M : Type) (σ : Type) where
  gen : NumpyRandom σ
  sqrtFn : ℚ → ℚ
  fitModel : List (List ℚ) → List ℤ → M

/-- `train_model` (scoring.py lines 68-92): generate the corpus, fit the
scaler and scale the corpus (`fit_transform`), fit the classifier on the
scaled corpus, persist both artifacts, and return the pair. -/
def train_model {M σ : Type} (ops : TrainerOps M σ) (g : σ) (fs : FS M) :
    (M × StandardScaler) × FS M :=
  let Xy := create_training_data ops.gen g
  let scaler := fitScaler ops.sqrtFn Xy.1
  let X_scaled := Xy.1.map fun row =>
    (row.zip (scaler.mean.zip scaler.scale)).map fun p => (p.1 - p.2.1) / p.2.2
  let model := ops.fitModel X_scaled Xy.2
  ((model, scaler), persistArtifacts fs model scaler .ok)

/-- `load_model` (scoring.py lines 94-101): if both artifact files exist,
read both back; otherwise run `train_model`.  `joblib.load` of a truncated
file raises, hence the `Option`; the training branch always succeeds. -/
def load_model {M σ : Type} (ops : TrainerOps M σ) (g : σ) (fs : FS M) :
    Option ((Blob M × Blob M) × FS M) :=
  if path_exists fs MODEL_PATH && path_exists fs SCALER_PATH then
    match joblib_load fs MODEL_PATH, joblib_load fs SCALER_PATH with
    | some bm, some bs => some ((bm, bs), fs)
    | _, _ => none
  else
    let ms := train_model ops g fs
    some ((.model ms.1.1, .scaler ms.1.2), ms.2)

/-- C7: when both artifact files exist with valid contents, `load_model`
returns the persisted pair and leaves the store untouched; when either file
is missing, it synchronously runs the full training sequence and returns the
freshly trained pair, with both artifacts persisted. -/
theorem load_model_spec {M σ : Type} (ops : TrainerOps M σ) (g : σ) (fs : FS M)
    (bm bs : Blob M) :
    (lookupFS fs MODEL_PATH = some (.valid bm) →
      lookupFS fs SCALER_PATH = some (.valid bs) →
      load_model ops g fs = some ((bm, bs), fs))
    ∧ ((lookupFS fs MODEL_PATH = none ∨ lookupFS fs SCALER_PATH = none) →
      load_model ops g fs
        = some ((.model (train_model ops g fs).1.1,
                 .scaler (train_model ops g fs).1.2), (train_model ops g fs).2)
      ∧ lookupFS (train_model ops g fs).2 MODEL_PATH
          = some (.valid (.model (train_model ops g fs).1.1))
      ∧ lookupFS (train_model ops g fs).2 SCALER_PATH
          = some (.valid (.scaler (train_model ops g fs).1.2))) := by
  constructor
  · intro hm hs
    have pm : path_exists fs MODEL_PATH = true := by
      rw [path_exists, hm]; rfl
    have ps : path_exists fs SCALER_PATH = true := by
      rw [path_exists, hs]; rfl
    have em : joblib_load fs MODEL_PATH = some bm := by
      rw [joblib_load, hm]
    have es : joblib_load fs SCALER_PATH = some bs := by
      rw [joblib_load, hs]
    simp [load_model, pm, ps, em, es]
  · intro hor
    have hfalse : (path_exists fs MODEL_PATH && path_exists fs SCALER_PATH) = false := by
      rcases hor with h | h
      · simp [path_exists, h]
      · simp [path_exists, h]
    refine ⟨by simp [load_model, hfalse], ?_, ?_⟩
    · simp [train_model, persistArtifacts, joblib_dump, writeFS, lookupFS,
        List.lookup, MODEL_PATH, SCALER_PATH]
    · simp [train_model, persistArtifacts, joblib_dump, writeFS, lookupFS,
        List.lookup, MODEL_PATH, SCALER_PATH]

/-- A degenerate deterministic generator over a unit state. -/
def wGen : NumpyRandom Unit where
  seed := fun _ => ()
  normal := fun _ _ n g => (List.replicate n 0, g)
  lognormal := fun _ _ n g => (List.replicate n 1, g)
  uniform := fun _ _ n g => (List.replicate n 1, g)
  beta := fun _ _ n g => (List.replicate n 0, g)
  poisson := fun _ n g => (List.replicate n 0, g)
  binomial := fun _ _ n g => (List.replicate n 0, g)
  exponential := fun _ n g => (List.replicate n 0, g)

/-- Degenerate training collaborators over a unit classifier type. -/
def wOps : TrainerOps Unit Unit := ⟨wGen, fun x => x, fun _ _ => ()⟩

/-- A store already holding a valid artifact pair. -/
def fsValidPair : FS Unit :=
  [(MODEL_PATH, .valid (.model ())), (SCALER_PATH, .valid (.scaler ⟨[], []⟩))]

/-- Witness for C7: on a store with both artifacts, `load_model` returns the
persisted pair; on an empty store, it returns the freshly trained pair. -/
theorem load_model_spec_witness :
    load_model wOps () fsValidPair
      = some (((.model ()), (.scaler ⟨[], []⟩)), fsValidPair)
    ∧ load_model wOps () ([] : FS Unit)
        = some ((.model (train_model wOps () ([] : FS Unit)).1.1,
                 .scaler (train_model wOps () ([] : FS Unit)).1.2),
                (train_model wOps () ([] : FS Unit)).2) :=
  ⟨(load_model_spec wOps () fsValidPair (.model ()) (.scaler ⟨[], []⟩)).1 rfl rfl,
   ((load_model_spec wOps () [] (.model ()) (.model ())).2 (Or.inl rfl)).1⟩

/-- C9 counterexample: starting from a store holding a valid artifact pair, a
write failure between the truncation and the completed write of the model
dump leaves the model artifact unreadable — the previously-written valid
artifact does not remain intact and readable, so artifact replacement is not
atomic. -/
theorem persist_failure_corrupts_previous :
    joblib_load fsValidPair MODEL_PATH = some (.model ())
    ∧ joblib_load (persistArtifacts fsValidPair () ⟨[], []⟩ .failFirst)
        MODEL_PATH = none := by
  exact ⟨rfl, rfl⟩

/-- C9 (amended): `train_model` persists by dumping each artifact directly to
its final path with no temporary file or atomic rename.  A failure partway
through the model dump truncates the model artifact in place — its previous
content is lost and the file is unreadable — while the scaler file keeps its
previous content; a failure partway through the scaler dump likewise
truncates the scaler artifact while the freshly dumped model remains
readable. -/
theorem persist_failure_effects {M : Type} (fs : FS M) (m : M)
    (sc : StandardScaler) :
    (joblib_load (persistArtifacts fs m sc .failFirst) MODEL_PATH = none
      ∧ lookupFS (persistArtifacts fs m sc .failFirst) SCALER_PATH
          = lookupFS fs SCALER_PATH)
    ∧ (joblib_load (persistArtifacts fs m sc .failSecond) SCALER_PATH = none
      ∧ joblib_load (persistArtifacts fs m sc .failSecond) MODEL_PATH
          = some (.model m)) := by
  refine ⟨⟨?_, ?_⟩, ?_, ?_⟩
  · simp [persistArtifacts, joblib_dump, writeFS, joblib_load, lookupFS,
      List.lookup]
  · simp [persistArtifacts, joblib_dump, writeFS, lookupFS, List.lookup,
      MODEL_PATH, SCALER_PATH]
  · simp [persistArtifacts, joblib_dump, writeFS, joblib_load, lookupFS,
      List.lookup]
  · simp [persistArtifacts, joblib_dump, writeFS, joblib_load, lookupFS,
      List.lookup, MODEL_PATH, SCALER_PATH]
